import Mathlib

/-!
Verification of the Bright Byte Solution booking backend (server.js).

The file embeds the two request handlers of the server as pure Lean
functions and proves the spec claims about them:

* `createCheckoutSessionHandler` embeds the POST /api/create-checkout-session
  handler (validation, pricing table, session parameters).
* `webhookPost` embeds the POST /api/webhook handler (signature
  verification, fulfillment sequencing, acknowledgment).
* `createOutlookEvent` embeds the calendar-event construction, with the
  JavaScript Date semantics made explicit: `new Date(y, m-1, d, hh, mm)`
  interprets the fields in the server local time zone (modelled by an
  explicit offset parameter, minutes behind UTC as returned by
  getTimezoneOffset) and `toISOString` renders the instant in UTC.

Effects are modelled explicitly: the checkout handler result carries the
parameters of the processor call when one is made, and the webhook
handler returns the list of fulfillment steps it attempts.
-/

namespace BrightByte

/-! ## Booking requests and the checkout-session handler (server.js lines 30-104) -/

/-- A booking request body as destructured by the handler.  A field absent
from the JSON body destructures to `undefined`, modelled as `none`. -/
structure BookingReq where
  name : Option String
  email : Option String
  phone : Option String
  service : Option String
  date : Option String
  time : Option String
  message : Option String
  deriving Repr, DecidableEq

/-- JavaScript truthiness of a possibly-absent string value: `undefined`
and the empty string are falsy, every other string is truthy. -/
def truthy (x : Option String) : Bool :=
  match x with
  | none => false
  | some s => s != ""

/-- The servicePrices table (server.js lines 40-45); an unknown key
reads as `undefined`, modelled as `none`. -/
def servicePrices (s : String) : Option Nat :=
  if s = "consultation" then some 15000
  else if s = "starter" then some 150000
  else if s = "professional" then some 350000
  else if s = "enterprise" then some 0
  else none

/-- The serviceNames display table (server.js lines 60-65). -/
def serviceNames (s : String) : Option String :=
  if s = "consultation" then some "Initial Consultation"
  else if s = "starter" then some "Starter Package"
  else if s = "professional" then some "Professional Package"
  else if s = "enterprise" then some "Enterprise Package"
  else none

/-- The metadata object attached to the checkout session
(server.js lines 87-95). -/
structure Metadata where
  customerName : String
  customerEmail : String
  customerPhone : String
  service : String
  appointmentDate : String
  appointmentTime : String
  projectDetails : String
  deriving Repr, DecidableEq

/-- The argument object of stripe.checkout.sessions.create
(server.js lines 68-96), restricted to the data-carrying fields. -/
structure SessionParams where
  currency : String
  productName : String
  productDescription : String
  unit_amount : Nat
  quantity : Nat
  mode : String
  customer_email : String
  metadata : Metadata
  deriving Repr, DecidableEq

/-- Outcome of the checkout-session handler up to the external call:
either an error response (status, message) returned before any external
call, or the invocation of stripe.checkout.sessions.create with the
given parameters.  `createSession` is the only constructor that
represents a call to the payment processor. -/
inductive CheckoutResult where
  | errorResponse (status : Nat) (msg : String)
  | createSession (p : SessionParams)
  deriving Repr, DecidableEq

/-- Whether the handler outcome includes a call to the payment
processor. -/
def callsProcessor : CheckoutResult → Bool
  | .createSession _ => true
  | .errorResponse _ _ => false

/-- The POST /api/create-checkout-session handler (server.js lines
30-104) up to the processor call: field validation, price lookup,
enterprise rejection, then the construction of the session-creation
parameters.  The 500 branch for a processor-side failure happens after
the call and is outside this pure model. -/
def createCheckoutSessionHandler (req : BookingReq) : CheckoutResult :=
  if !(truthy req.name && truthy req.email && truthy req.phone
      && truthy req.service && truthy req.date && truthy req.time) then
    .errorResponse 400 "Missing required fields"
  else
    match servicePrices (req.service.getD "") with
    | none => .errorResponse 400 "Invalid service selected"
    | some price =>
      if req.service.getD "" = "enterprise" then
        .errorResponse 400 "Enterprise packages require custom quote. Please contact us directly."
      else
        .createSession
          { currency := "usd"
            productName := (serviceNames (req.service.getD "")).getD ""
            productDescription :=
              "Appointment on " ++ req.date.getD "" ++ " at " ++ req.time.getD ""
            unit_amount := price
            quantity := 1
            mode := "payment"
            customer_email := req.email.getD ""
            metadata :=
              { customerName := req.name.getD ""
                customerEmail := req.email.getD ""
                customerPhone := req.phone.getD ""
                service := req.service.getD ""
                appointmentDate := req.date.getD ""
                appointmentTime := req.time.getD ""
                projectDetails :=
                  if truthy req.message then req.message.getD ""
                  else "No details provided" } }

/-! ## Webhook verification and the fulfillment orchestrator
(server.js lines 107-143) -/

/-- A payment notification after parsing: the event type and, for a
checkout session, its id and the metadata echoed back by the processor
(event.data.object of server.js line 124). -/
structure StripeEvent where
  type : String
  sessionId : String
  metadata : Metadata
  deriving Repr, DecidableEq

/-- A signature value as carried by the stripe-signature header.
Modelled from the spec: the signature scheme itself lives in the
payment-processor library (stripe.webhooks.constructEvent), not in this
repository; per the spec it is a shared-secret code over the exact raw
body bytes.  We use the standard symbolic (ideal MAC) model: a
signature value is the abstract term mac(secret, body), which matches a
recomputation exactly when both the secret and every byte of the body
agree. -/
structure StripeSignature where
  signedSecret : String
  signedBody : List Nat
  deriving Repr, DecidableEq

/-- Modelled from the spec: the sender computes the signature of the raw
body bytes under the shared secret (symbolic MAC). -/
def computeSignature (secret : String) (body : List Nat) : StripeSignature :=
  ⟨secret, body⟩

/-- The message of a SignatureVerificationError. -/
def sigFailMsg : String := "signature verification failed"

/-- Modelled from the spec: stripe.webhooks.constructEvent (called at
server.js lines 112-116).  Given the raw body bytes, the signature
header and the endpoint secret it recomputes the signature over the
exact raw bytes, rejects on mismatch, and on success parses the
verified body into a typed event.  `decode` is the JSON parse of the
byte payload; it is a parameter because the wire encoding is owned by
the processor. -/
def constructEvent (decode : List Nat → Option StripeEvent)
    (body : List Nat) (sig : StripeSignature) (secret : String) :
    Except String StripeEvent :=
  if sig = computeSignature secret body then
    match decode body with
    | some e => .ok e
    | none => .error "invalid payload"
  else .error sigFailMsg

/-- Response bodies of the webhook route: the acknowledgment JSON
object with received set to true, or the plain-text webhook error. -/
inductive WebhookBody where
  | receivedTrue
  | webhookError (msg : String)
  deriving Repr, DecidableEq

/-- An HTTP response of the webhook route: status code and body. -/
structure WebhookResponse where
  status : Nat
  body : WebhookBody
  deriving Repr, DecidableEq

/-- A fulfillment side effect attempted by the webhook handler. -/
inductive FulfillStep where
  | calendarEvent (md : Metadata)
  | confirmationEmail (md : Metadata)
  deriving Repr, DecidableEq

set_option linter.unusedVariables false in
/-- The POST /api/webhook handler (server.js lines 107-143) as a pure
function from the verification inputs and the outcomes of the external
fulfillment calls to the HTTP response and the list of fulfillment
steps the handler attempts, in order.  `calendarOk` says whether the
awaited createOutlookEvent call succeeds and `emailOk` whether the
awaited sendConfirmationEmail call succeeds; both calls sit in a single
try block (lines 128-139), so the email call is reached only when the
calendar call did not throw, and a failure of either is caught and
never reaches the response.  `emailOk` affects no observable outcome:
an email failure only skips the success log line. -/
def webhookPost (decode : List Nat → Option StripeEvent)
    (body : List Nat) (sig : StripeSignature) (secret : String)
    (calendarOk emailOk : Bool) :
    WebhookResponse × List FulfillStep :=
  match constructEvent decode body sig secret with
  | .error msg => (⟨400, .webhookError msg⟩, [])
  | .ok event =>
    if event.type = "checkout.session.completed" then
      (⟨200, .receivedTrue⟩,
        .calendarEvent event.metadata ::
          (if calendarOk then [.confirmationEmail event.metadata] else []))
    else
      (⟨200, .receivedTrue⟩, [])

/-! ## JavaScript Date arithmetic and the calendar event
(server.js lines 166-231)

`new Date(y, m-1, d, hh, mm)` builds the instant whose wall-clock
reading in the server local time zone is the given civil fields
(normalizing overflow), and `toISOString` renders that instant as a UTC
combined date-time string with a trailing Z.  The server time zone is
modelled by `tzOffset`, the value of getTimezoneOffset in minutes
(UTC minus local; 0 for a UTC server, 240 for America/New_York during
daylight saving).  Civil-to-day conversions use the standard
proleptic-Gregorian algorithms. -/

/-- Days since 1970-01-01 of the civil date y-m-d
(proleptic Gregorian, months normalized by the arithmetic). -/
def daysFromCivil (y m d : Int) : Int :=
  let y' : Int := if m ≤ 2 then y - 1 else y
  let era : Int := Int.fdiv y' 400
  let yoe : Int := y' - era * 400
  let mp : Int := if m > 2 then m - 3 else m + 9
  let doy : Int := Int.fdiv (153 * mp + 2) 5 + d - 1
  let doe : Int := yoe * 365 + Int.fdiv yoe 4 - Int.fdiv yoe 100 + doy
  era * 146097 + doe - 719468

/-- Civil date y-m-d of a count of days since 1970-01-01. -/
def civilFromDays (z : Int) : Int × Int × Int :=
  let z' : Int := z + 719468
  let era : Int := Int.fdiv z' 146097
  let doe : Int := z' - era * 146097
  let yoe : Int :=
    Int.fdiv (doe - Int.fdiv doe 1460 + Int.fdiv doe 36524 - Int.fdiv doe 146096) 365
  let y : Int := yoe + era * 400
  let doy : Int := doe - (365 * yoe + Int.fdiv yoe 4 - Int.fdiv yoe 100)
  let mp : Int := Int.fdiv (5 * doy + 2) 153
  let d : Int := doy - Int.fdiv (153 * mp + 2) 5 + 1
  let m : Int := if mp < 10 then mp + 3 else mp - 9
  (if m ≤ 2 then y + 1 else y, m, d)

/-- Epoch minutes of `new Date(y, m-1, d, hh, mm)` on a server whose
getTimezoneOffset is `tzOffset`: the civil fields are read as local
wall-clock time, so the instant is that wall clock plus the offset. -/
def jsDateEpochMin (y m d hh mm tzOffset : Int) : Int :=
  daysFromCivil y m d * 1440 + hh * 60 + mm + tzOffset

/-- Left-pad the decimal rendering of a nonnegative integer to two
digits. -/
def pad2 (n : Int) : String :=
  if n < 10 then "0" ++ toString n else toString n

/-- Left-pad the decimal rendering of a nonnegative integer to four
digits. -/
def pad4 (n : Int) : String :=
  if n < 10 then "000" ++ toString n
  else if n < 100 then "00" ++ toString n
  else if n < 1000 then "0" ++ toString n
  else toString n

/-- Date.prototype.toISOString of an instant given in epoch minutes
(the handler builds dates with whole-minute precision, so seconds and
milliseconds are zero): the UTC civil reading rendered as
YYYY-MM-DDTHH:MM:00.000Z. -/
def toISOString (epochMin : Int) : String :=
  let days : Int := Int.fdiv epochMin 1440
  let mins : Int := epochMin - days * 1440
  let ymd := civilFromDays days
  pad4 ymd.1 ++ "-" ++ pad2 ymd.2.1 ++ "-" ++ pad2 ymd.2.2 ++ "T"
    ++ pad2 (Int.fdiv mins 60) ++ ":" ++ pad2 (Int.emod mins 60) ++ ":00.000Z"

/-- A dateTime/timeZone pair as sent to the calendar API. -/
structure EventDateTime where
  dateTime : String
  timeZone : String
  deriving Repr, DecidableEq

/-- An attendee entry of the calendar event. -/
structure Attendee where
  address : String
  name : String
  type : String
  deriving Repr, DecidableEq

/-- The calendar event object built by createOutlookEvent (server.js
lines 178-218), restricted to the claimed fields; the HTML body
content, which only interpolates the same metadata fields into fixed
markup, is not modelled. -/
structure OutlookEvent where
  subject : String
  start : EventDateTime
  end_ : EventDateTime
  attendees : List Attendee
  locationDisplayName : String
  isOnlineMeeting : Bool
  onlineMeetingProvider : String
  deriving Repr, DecidableEq

/-- Split a character list on a separator character, keeping empty
pieces, as String.prototype.split does with a one-character
separator. -/
def splitOnChar (c : Char) : List Char → List (List Char)
  | [] => [[]]
  | x :: xs =>
    match splitOnChar c xs with
    | [] => if x = c then [[], []] else [[x]]
    | y :: ys => if x = c then [] :: y :: ys else (x :: y) :: ys

/-- The numeric value of a decimal digit character. -/
def digitVal (c : Char) : Option Nat :=
  if c = '0' then some 0 else if c = '1' then some 1
  else if c = '2' then some 2 else if c = '3' then some 3
  else if c = '4' then some 4 else if c = '5' then some 5
  else if c = '6' then some 6 else if c = '7' then some 7
  else if c = '8' then some 8 else if c = '9' then some 9
  else none

/-- Parse a nonempty all-digit character list as a decimal number
(the numeric coercion applied by the Date constructor; a part with a
non-digit yields NaN, modelled as `none`). -/
def charsToNat? (l : List Char) : Option Nat :=
  match l with
  | [] => none
  | _ =>
    l.foldl
      (fun acc c =>
        match acc, digitVal c with
        | some n, some d => some (n * 10 + d)
        | _, _ => none)
      (some 0)

/-- appointmentDate.split with year, month, day destructuring and the
numeric coercion done by the Date constructor (server.js line 172);
`none` models the NaN date produced when a part is missing or not
numeric. -/
def parseDateParts (s : String) : Option (Int × Int × Int) :=
  match (splitOnChar '-' s.toList).map charsToNat? with
  | some a :: some b :: some c :: _ => some (a, b, c)
  | _ => none

/-- appointmentTime.split with hours, minutes destructuring and numeric
coercion (server.js line 173). -/
def parseTimeParts (s : String) : Option (Int × Int) :=
  match (splitOnChar ':' s.toList).map charsToNat? with
  | some a :: some b :: _ => some (a, b)
  | _ => none

/-- createOutlookEvent (server.js lines 166-231) up to the groupware
API call: the event object it posts, as a function of the session
metadata and of the server time-zone offset (minutes, getTimezoneOffset
convention).  startDateTime is `new Date(year, month-1, day, hours,
minutes)` in server-local time, endDateTime is one hour later, and both
are rendered with toISOString (hence in UTC, with a trailing Z) while
the timeZone property is the fixed string America/New_York.  Returns
`none` when the date or time fails to parse (the NaN-date case). -/
def createOutlookEvent (md : Metadata) (tzOffset : Int) : Option OutlookEvent :=
  match parseDateParts md.appointmentDate, parseTimeParts md.appointmentTime with
  | some (y, mo, d), some (hh, mi) =>
    let startMin : Int := jsDateEpochMin y mo d hh mi tzOffset
    let endMin : Int := startMin + 60
    some
      { subject := "Client Appointment: " ++ md.customerName ++ " - " ++ md.service
        start := ⟨toISOString startMin, "America/New_York"⟩
        end_ := ⟨toISOString endMin, "America/New_York"⟩
        attendees := [⟨md.customerEmail, md.customerName, "required"⟩]
        locationDisplayName := "Microsoft Teams Meeting"
        isOnlineMeeting := true
        onlineMeetingProvider := "teamsForBusiness" }
  | _, _ => none

/-! ## Sample data for concrete evaluations -/

/-- The metadata of the end-to-end scenario of the spec (section 8). -/
def mdSample : Metadata :=
  { customerName := "Jane Doe"
    customerEmail := "jane@x.com"
    customerPhone := "555-0100"
    service := "professional"
    appointmentDate := "2025-03-10"
    appointmentTime := "14:00"
    projectDetails := "No details provided" }

/-- A sample completed-checkout notification. -/
def sampleCompleted : StripeEvent :=
  ⟨"checkout.session.completed", "cs_123", mdSample⟩

/-- A sample notification of a type other than checkout completion. -/
def sampleOther : StripeEvent :=
  ⟨"payment_intent.created", "pi_1", mdSample⟩

/-- A sample wire decoding for concrete webhook evaluations: byte
payload 0 encodes the completed notification, byte payload 1 the other
notification. -/
def decodeSample : List Nat → Option StripeEvent := fun b =>
  if b = [0] then some sampleCompleted
  else if b = [1] then some sampleOther
  else none

/-! ## Claims about the checkout-session handler -/

/-- C3: for every valid booking request with service starter, the
checkout session is created with unit price exactly 150000 minor
currency units, and the session metadata exactly equals the submitted
booking fields, with the message defaulted to the placeholder string
when absent. -/
theorem starter_price_and_metadata_exact
    (req : BookingReq) (nm em ph dt tm : String)
    (hn : req.name = some nm) (hnm : nm ≠ "")
    (he : req.email = some em) (hem : em ≠ "")
    (hp : req.phone = some ph) (hph : ph ≠ "")
    (hs : req.service = some "starter")
    (hd : req.date = some dt) (hdt : dt ≠ "")
    (ht : req.time = some tm) (htm : tm ≠ "") :
    (req.message = none →
      createCheckoutSessionHandler req = .createSession
        { currency := "usd", productName := "Starter Package",
          productDescription := "Appointment on " ++ dt ++ " at " ++ tm,
          unit_amount := 150000, quantity := 1, mode := "payment",
          customer_email := em,
          metadata := ⟨nm, em, ph, "starter", dt, tm, "No details provided"⟩ })
    ∧ ∀ m : String, req.message = some m → m ≠ "" →
      createCheckoutSessionHandler req = .createSession
        { currency := "usd", productName := "Starter Package",
          productDescription := "Appointment on " ++ dt ++ " at " ++ tm,
          unit_amount := 150000, quantity := 1, mode := "payment",
          customer_email := em,
          metadata := ⟨nm, em, ph, "starter", dt, tm, m⟩ } := by
  constructor
  · intro hm
    simp [createCheckoutSessionHandler, truthy, servicePrices, serviceNames,
      hn, he, hp, hs, hd, ht, hm, hnm, hem, hph, hdt, htm]
  · intro m hm hmne
    simp [createCheckoutSessionHandler, truthy, servicePrices, serviceNames,
      hn, he, hp, hs, hd, ht, hm, hnm, hem, hph, hdt, htm, hmne]

/-- Witness for C3 at a concrete request with the message absent. -/
theorem starter_price_and_metadata_exact_witness :
    createCheckoutSessionHandler
        ⟨some "Jane Doe", some "jane@x.com", some "555-0100", some "starter",
         some "2025-03-10", some "14:00", none⟩
      = .createSession
        { currency := "usd", productName := "Starter Package",
          productDescription := "Appointment on 2025-03-10 at 14:00",
          unit_amount := 150000, quantity := 1, mode := "payment",
          customer_email := "jane@x.com",
          metadata := ⟨"Jane Doe", "jane@x.com", "555-0100", "starter",
            "2025-03-10", "14:00", "No details provided"⟩ } :=
  (starter_price_and_metadata_exact
      ⟨some "Jane Doe", some "jane@x.com", some "555-0100", some "starter",
       some "2025-03-10", some "14:00", none⟩
      "Jane Doe" "jane@x.com" "555-0100" "2025-03-10" "14:00"
      rfl (by decide) rfl (by decide) rfl (by decide) rfl
      rfl (by decide) rfl (by decide)).1 rfl

/-- C4: a booking request for the enterprise tier with all required
fields present is rejected with status 400 and the custom-quote
message, and the payment processor is not called. -/
theorem enterprise_rejected_before_processor
    (req : BookingReq)
    (hn : truthy req.name = true) (he : truthy req.email = true)
    (hp : truthy req.phone = true) (hd : truthy req.date = true)
    (ht : truthy req.time = true)
    (hs : req.service = some "enterprise") :
    createCheckoutSessionHandler req
        = .errorResponse 400
            "Enterprise packages require custom quote. Please contact us directly."
      ∧ callsProcessor (createCheckoutSessionHandler req) = false := by
  have hst : truthy (some "enterprise") = true := by decide
  constructor <;>
    simp [createCheckoutSessionHandler, hn, he, hp, hd, ht, hs, hst,
      servicePrices, callsProcessor]

/-- Witness for C4 at a concrete enterprise request. -/
theorem enterprise_rejected_before_processor_witness :
    createCheckoutSessionHandler
        ⟨some "Jane Doe", some "jane@x.com", some "555-0100", some "enterprise",
         some "2025-03-10", some "14:00", none⟩
        = .errorResponse 400
            "Enterprise packages require custom quote. Please contact us directly."
      ∧ callsProcessor (createCheckoutSessionHandler
          ⟨some "Jane Doe", some "jane@x.com", some "555-0100", some "enterprise",
           some "2025-03-10", some "14:00", none⟩) = false :=
  enterprise_rejected_before_processor
    ⟨some "Jane Doe", some "jane@x.com", some "555-0100", some "enterprise",
     some "2025-03-10", some "14:00", none⟩
    (by decide) (by decide) (by decide) (by decide) (by decide) rfl

/-- C5: a booking request missing any of the six required fields is
rejected with status 400 and the missing-fields message, and the
payment processor is not called. -/
theorem missing_field_rejected_before_processor
    (req : BookingReq)
    (h : req.name = none ∨ req.email = none ∨ req.phone = none
        ∨ req.service = none ∨ req.date = none ∨ req.time = none) :
    createCheckoutSessionHandler req = .errorResponse 400 "Missing required fields"
      ∧ callsProcessor (createCheckoutSessionHandler req) = false := by
  rcases h with h | h | h | h | h | h <;>
    constructor <;>
      simp [createCheckoutSessionHandler, truthy, h, callsProcessor]

/-- Witness for C5 at a request missing the name field. -/
theorem missing_field_rejected_before_processor_witness :
    createCheckoutSessionHandler
        ⟨none, some "jane@x.com", some "555-0100", some "starter",
         some "2025-03-10", some "14:00", none⟩
        = .errorResponse 400 "Missing required fields"
      ∧ callsProcessor (createCheckoutSessionHandler
          ⟨none, some "jane@x.com", some "555-0100", some "starter",
           some "2025-03-10", some "14:00", none⟩) = false :=
  missing_field_rejected_before_processor
    ⟨none, some "jane@x.com", some "555-0100", some "starter",
     some "2025-03-10", some "14:00", none⟩
    (Or.inl rfl)

/-- C10: a booking request in which a required field is present but
equals the empty string is rejected exactly like an absent field, with
status 400 and the missing-fields message, and the payment processor
is not called: the presence check is by truthiness. -/
theorem empty_string_field_rejected_like_absent
    (req : BookingReq)
    (h : req.name = some "" ∨ req.email = some "" ∨ req.phone = some ""
        ∨ req.service = some "" ∨ req.date = some "" ∨ req.time = some "") :
    createCheckoutSessionHandler req = .errorResponse 400 "Missing required fields"
      ∧ callsProcessor (createCheckoutSessionHandler req) = false := by
  rcases h with h | h | h | h | h | h <;>
    constructor <;>
      simp [createCheckoutSessionHandler, truthy, h, callsProcessor]

/-- Witness for C10 at a request whose phone field is the empty
string. -/
theorem empty_string_field_rejected_like_absent_witness :
    createCheckoutSessionHandler
        ⟨some "Jane Doe", some "jane@x.com", some "", some "starter",
         some "2025-03-10", some "14:00", none⟩
        = .errorResponse 400 "Missing required fields"
      ∧ callsProcessor (createCheckoutSessionHandler
          ⟨some "Jane Doe", some "jane@x.com", some "", some "starter",
           some "2025-03-10", some "14:00", none⟩) = false :=
  empty_string_field_rejected_like_absent
    ⟨some "Jane Doe", some "jane@x.com", some "", some "starter",
     some "2025-03-10", some "14:00", none⟩
    (Or.inr (Or.inr (Or.inl rfl)))

/-! ## Claims about the webhook route -/

/-- A list differs from its update at a valid index when the new value
differs from the old one. -/
theorem set_ne_of_ne_get {α : Type} (l : List α) (i : Nat)
    (h : i < l.length) (v : α) (hv : v ≠ l.get ⟨i, h⟩) : l.set i v ≠ l := by
  intro heq
  apply hv
  have h2 : i < (l.set i v).length := by simpa using h
  have ha : (l.set i v)[i]? = some v := by
    rw [List.getElem?_eq_getElem h2, List.getElem_set_self]
  have hb : l[i]? = some (l.get ⟨i, h⟩) := by
    rw [List.getElem?_eq_getElem h]
    simp [List.get_eq_getElem]
  rw [heq] at ha
  exact Option.some_injective _ (ha.symm.trans hb)

/-- C7: webhook verification is byte-exact over the raw body: the
correct secret with the unaltered body verifies and parses, while the
same payload with one byte altered, or the same payload checked under a
different secret, fails verification, and the route then responds 400
with the webhook error instead of acknowledging. -/
theorem signature_byte_exact
    (decode : List Nat → Option StripeEvent) (secret altSecret : String)
    (body : List Nat) (e : StripeEvent) (i : Nat) (hi : i < body.length)
    (v : Nat) (calendarOk emailOk : Bool)
    (hdec : decode body = some e)
    (hv : v ≠ body.get ⟨i, hi⟩)
    (hsec : altSecret ≠ secret) :
    constructEvent decode body (computeSignature secret body) secret = .ok e
    ∧ constructEvent decode (body.set i v) (computeSignature secret body) secret
        = .error sigFailMsg
    ∧ constructEvent decode body (computeSignature secret body) altSecret
        = .error sigFailMsg
    ∧ webhookPost decode (body.set i v) (computeSignature secret body) secret
        calendarOk emailOk = (⟨400, .webhookError sigFailMsg⟩, [])
    ∧ webhookPost decode body (computeSignature secret body) altSecret
        calendarOk emailOk = (⟨400, .webhookError sigFailMsg⟩, []) := by
  have hb : body ≠ body.set i v :=
    fun hEq => set_ne_of_ne_get body i hi v hv hEq.symm
  have h1 : constructEvent decode body (computeSignature secret body) secret = .ok e := by
    simp [constructEvent, hdec]
  have h2 : constructEvent decode (body.set i v) (computeSignature secret body) secret
      = .error sigFailMsg := by
    simp [constructEvent, computeSignature, hb]
  have h3 : constructEvent decode body (computeSignature secret body) altSecret
      = .error sigFailMsg := by
    simp [constructEvent, computeSignature, Ne.symm hsec]
  refine ⟨h1, h2, h3, ?_, ?_⟩
  · unfold webhookPost
    rw [h2]
  · unfold webhookPost
    rw [h3]

/-- Witness for C7: payload byte 0 under the correct secret verifies;
flipping the single byte to 1, or checking under the other secret,
yields the 400 webhook error. -/
theorem signature_byte_exact_witness :
    constructEvent decodeSample [0] (computeSignature "whsec_a" [0]) "whsec_a"
        = .ok sampleCompleted
    ∧ constructEvent decodeSample ([0].set 0 1) (computeSignature "whsec_a" [0]) "whsec_a"
        = .error sigFailMsg
    ∧ constructEvent decodeSample [0] (computeSignature "whsec_a" [0]) "whsec_b"
        = .error sigFailMsg
    ∧ webhookPost decodeSample ([0].set 0 1) (computeSignature "whsec_a" [0]) "whsec_a"
        true true = (⟨400, .webhookError sigFailMsg⟩, [])
    ∧ webhookPost decodeSample [0] (computeSignature "whsec_a" [0]) "whsec_b"
        true true = (⟨400, .webhookError sigFailMsg⟩, []) :=
  signature_byte_exact decodeSample "whsec_a" "whsec_b" [0] sampleCompleted
    0 (by decide) 1 true true rfl (by decide) (by decide)

/-- C9: webhook verification is a pure function of body, signature and
secret: two verifications with equal inputs produce the same parsed
notification (the same Except value). -/
theorem verification_deterministic
    (decode : List Nat → Option StripeEvent)
    (b1 b2 : List Nat) (s1 s2 : StripeSignature) (k1 k2 : String)
    (hb : b1 = b2) (hs : s1 = s2) (hk : k1 = k2) :
    constructEvent decode b1 s1 k1 = constructEvent decode b2 s2 k2 := by
  rw [hb, hs, hk]

/-- Witness for C9 at a concrete valid payload. -/
theorem verification_deterministic_witness :
    constructEvent decodeSample [0] (computeSignature "whsec" [0]) "whsec"
      = constructEvent decodeSample [0] (computeSignature "whsec" [0]) "whsec" :=
  verification_deterministic decodeSample [0] [0]
    (computeSignature "whsec" [0]) (computeSignature "whsec" [0])
    "whsec" "whsec" rfl rfl rfl

/-- C6: once signature verification succeeds, the webhook route
responds 200 with the received-true body, whatever the outcomes of the
calendar and email fulfillment calls. -/
theorem verified_webhook_always_acknowledged
    (decode : List Nat → Option StripeEvent)
    (body : List Nat) (sig : StripeSignature) (secret : String)
    (e : StripeEvent) (calendarOk emailOk : Bool)
    (h : constructEvent decode body sig secret = .ok e) :
    (webhookPost decode body sig secret calendarOk emailOk).1
      = ⟨200, .receivedTrue⟩ := by
  unfold webhookPost
  rw [h]
  by_cases hc : e.type = "checkout.session.completed" <;> simp [hc]

/-- Witness for C6: a verified completed notification with both
fulfillment calls failing is still acknowledged with 200. -/
theorem verified_webhook_always_acknowledged_witness :
    (webhookPost decodeSample [0] (computeSignature "whsec" [0]) "whsec"
        false false).1 = ⟨200, .receivedTrue⟩ :=
  verified_webhook_always_acknowledged decodeSample [0]
    (computeSignature "whsec" [0]) "whsec" sampleCompleted false false rfl

/-- C8: a verified notification whose type is not
checkout.session.completed is acknowledged with 200 and produces no
fulfillment step at all. -/
theorem other_event_types_no_side_effects
    (decode : List Nat → Option StripeEvent)
    (body : List Nat) (sig : StripeSignature) (secret : String)
    (e : StripeEvent) (calendarOk emailOk : Bool)
    (h : constructEvent decode body sig secret = .ok e)
    (ht : e.type ≠ "checkout.session.completed") :
    webhookPost decode body sig secret calendarOk emailOk
      = (⟨200, .receivedTrue⟩, []) := by
  unfold webhookPost
  rw [h]
  simp [ht]

/-- Witness for C8 at a verified payment-intent notification. -/
theorem other_event_types_no_side_effects_witness :
    webhookPost decodeSample [1] (computeSignature "whsec" [1]) "whsec"
        true true = (⟨200, .receivedTrue⟩, []) :=
  other_event_types_no_side_effects decodeSample [1]
    (computeSignature "whsec" [1]) "whsec" sampleOther true true
    rfl (by decide)

/-- C1 counterexample: a verified completed-payment notification whose
calendar call fails (calendarOk false) attempts only the calendar step;
the confirmation email is not attempted, because both calls share one
try block, refuting the claim that the email dispatch is still
attempted.  The 200 acknowledgment is still returned. -/
theorem calendar_failure_skips_email_counterexample :
    (webhookPost decodeSample [0] (computeSignature "whsec" [0]) "whsec"
        false true).1 = ⟨200, .receivedTrue⟩
    ∧ (webhookPost decodeSample [0] (computeSignature "whsec" [0]) "whsec"
        false true).2 = [.calendarEvent mdSample]
    ∧ FulfillStep.confirmationEmail mdSample
        ∉ (webhookPost decodeSample [0] (computeSignature "whsec" [0]) "whsec"
            false true).2 := by
  refine ⟨rfl, rfl, ?_⟩
  decide

/-- C1 amended: on a verified completed-payment notification the
confirmation email is attempted exactly when the calendar call
succeeds; when the calendar call fails only the calendar step is
attempted, and in both cases the route acknowledges with 200. -/
theorem email_attempted_iff_calendar_succeeds
    (decode : List Nat → Option StripeEvent)
    (body : List Nat) (sig : StripeSignature) (secret : String)
    (e : StripeEvent) (emailOk : Bool)
    (h : constructEvent decode body sig secret = .ok e)
    (ht : e.type = "checkout.session.completed") :
    webhookPost decode body sig secret false emailOk
        = (⟨200, .receivedTrue⟩, [.calendarEvent e.metadata])
    ∧ webhookPost decode body sig secret true emailOk
        = (⟨200, .receivedTrue⟩,
           [.calendarEvent e.metadata, .confirmationEmail e.metadata]) := by
  constructor <;> (unfold webhookPost; rw [h]; simp [ht])

/-- Witness for the amended C1 at a concrete verified completed
notification. -/
theorem email_attempted_iff_calendar_succeeds_witness :
    webhookPost decodeSample [0] (computeSignature "whsec" [0]) "whsec"
        false true = (⟨200, .receivedTrue⟩, [.calendarEvent mdSample])
    ∧ webhookPost decodeSample [0] (computeSignature "whsec" [0]) "whsec"
        true true = (⟨200, .receivedTrue⟩,
          [.calendarEvent mdSample, .confirmationEmail mdSample]) :=
  email_attempted_iff_calendar_succeeds decodeSample [0]
    (computeSignature "whsec" [0]) "whsec" sampleCompleted true rfl rfl

/-! ## Claims about the calendar event -/

/-- C2 counterexample: with the scenario metadata (date 2025-03-10,
time 14:00) on a server whose local time zone is America/New_York
itself (getTimezoneOffset 240), the built event start carries the
dateTime 2025-03-10T18:00:00.000Z while its timeZone property says
America/New_York: the wall-clock fields the calendar API reads in that
zone are 18:00, not the requested 14:00, refuting the claim as stated.
The start depends on the server time zone because the handler renders a
server-local Date with toISOString (UTC) but labels it with the fixed
zone string. -/
theorem event_start_shifted_on_ny_server_counterexample :
    (createOutlookEvent mdSample 240).map
        (fun ev => (ev.start.dateTime, ev.start.timeZone))
      = some ("2025-03-10T18:00:00.000Z", "America/New_York")
    ∧ ("2025-03-10T18:00:00.000Z" : String) ≠ "2025-03-10T14:00:00.000Z" := by
  refine ⟨rfl, ?_⟩
  decide

/-- C2 amended: when the server local time zone is UTC
(getTimezoneOffset 0), the event built for metadata with date
2025-03-10, time 14:00 and customer email jane@x.com has start
dateTime 2025-03-10T14:00:00.000Z labelled America/New_York, end
exactly one hour later, and the customer email as the required
attendee; on a server in any other time zone the start wall-clock is
shifted by the server offset. -/
theorem event_fields_on_utc_server
    (md : Metadata)
    (hd : md.appointmentDate = "2025-03-10")
    (ht : md.appointmentTime = "14:00")
    (he : md.customerEmail = "jane@x.com") :
    (createOutlookEvent md 0).map
        (fun ev => (ev.start, ev.end_, ev.attendees.map fun a => (a.address, a.type)))
      = some (⟨"2025-03-10T14:00:00.000Z", "America/New_York"⟩,
              ⟨"2025-03-10T15:00:00.000Z", "America/New_York"⟩,
              [("jane@x.com", "required")]) := by
  obtain ⟨nm, em, ph, sv, ad, atm, pd⟩ := md
  dsimp only at hd ht he
  subst hd ht he
  rfl

/-- Witness for the amended C2 at the scenario metadata. -/
theorem event_fields_on_utc_server_witness :
    (createOutlookEvent mdSample 0).map
        (fun ev => (ev.start, ev.end_, ev.attendees.map fun a => (a.address, a.type)))
      = some (⟨"2025-03-10T14:00:00.000Z", "America/New_York"⟩,
              ⟨"2025-03-10T15:00:00.000Z", "America/New_York"⟩,
              [("jane@x.com", "required")]) :=
  event_fields_on_utc_server mdSample rfl rfl rfl

end BrightByte
